import Mathlib

/-!
Verification of `scripts/backup_db.py` (EDRmount backup script).

The script is embedded shallowly: the backup directory is an association
list from filename to abstract file content, the environment supplies the
retention string, the timestamp and the (abstract) database bytes, and a
fault record says which of the fallible steps (the sqlite online copy, the
gzip compression, individual `os.remove` calls during rotation) raise.
`BackupDb.main` mirrors the control flow of `main()` in the script line by
line; every claim below is a theorem about `BackupDb.main` or about the
rotation step `BackupDb.rotate`.
-/

namespace BackupDb

/-- Abstract content of a file in the backup output directory.
`raw v` stands for uncompressed database bytes `v` (with `raw 0` the empty
database file that `sqlite3.connect(tmp_out)` creates on open), `gz v` for a
complete gzip stream of `raw v`, and `gzTruncated v` for the bytes that a
gzip write of `raw v` left behind when it raised part-way through. -/
inductive Content where
  | raw (v : Nat)
  | gz (v : Nat)
  | gzTruncated (v : Nat)
  deriving DecidableEq

/-- The filesystem as the script can observe it: whether the source database
file exists, whether the output directory exists, and the files of the
output directory as an association list from name to content (one entry per
name; inserting overwrites, as `os.replace` and `open(..., 'wb')` do). -/
structure FS where
  dbExists : Bool
  outDirExists : Bool
  out : List (String × Content)
  deriving DecidableEq

/-- Lookup of a filename in the output directory. -/
def fsLookup : List (String × Content) → String → Option Content
  | [], _ => none
  | (k, v) :: rest, key => if k = key then some v else fsLookup rest key

/-- `os.remove` / deletion of a name from the directory listing. -/
def fsErase (l : List (String × Content)) (k : String) : List (String × Content) :=
  l.filter (fun p => p.1 ≠ k)

/-- Creating or overwriting the file named `k` with content `v`. -/
def fsInsert (l : List (String × Content)) (k : String) (v : Content) :
    List (String × Content) :=
  (k, v) :: fsErase l k

/-- The whitespace characters stripped by Python `int()` before parsing
(ASCII subset). -/
def isPySpace (c : Char) : Bool :=
  c = ' ' || c = '\t' || c = '\n' || c = '\x0b' || c = '\x0c' || c = '\x0d'

/-- Strip leading and trailing whitespace. -/
def pyStrip (l : List Char) : List Char :=
  ((l.dropWhile isPySpace).reverse.dropWhile isPySpace).reverse

/-- Numeric value of a decimal digit character. -/
def digitVal (c : Char) : Nat := c.toNat - 48

/-- Digits after the first: Python `int()` allows single underscores
strictly between digits. -/
def parseDigitsGo (acc : Nat) : List Char → Option Nat
  | [] => some acc
  | ['_'] => none
  | '_' :: c :: rest =>
    if c.isDigit then parseDigitsGo (acc * 10 + digitVal c) rest else none
  | c :: rest =>
    if c.isDigit then parseDigitsGo (acc * 10 + digitVal c) rest else none

/-- A nonempty digit string (underscores allowed between digits). -/
def parseDigits : List Char → Option Nat
  | [] => none
  | c :: rest => if c.isDigit then parseDigitsGo (digitVal c) rest else none

/-- Python `int(s)` on a string: strip whitespace, optional sign, decimal
digits; `none` models the `ValueError` that `int()` raises otherwise. -/
def pyInt (s : String) : Option Int :=
  match pyStrip s.data with
  | '-' :: rest => (parseDigits rest).map (fun n => -(n : Int))
  | '+' :: rest => (parseDigits rest).map (fun n => (n : Int))
  | l => (parseDigits l).map (fun n => (n : Int))

/-- `tmp_out = os.path.join(out_dir, f"edrmount.db.\x7bts\x7d.tmp")`. -/
def tmpName (ts : String) : String := "edrmount.db." ++ ts ++ ".tmp"

/-- `final_out = os.path.join(out_dir, f"edrmount.db.\x7bts\x7d.sqlite")`. -/
def sqliteName (ts : String) : String := "edrmount.db." ++ ts ++ ".sqlite"

/-- `final_gz = final_out + '.gz'`. -/
def gzName (ts : String) : String := sqliteName ts ++ ".gz"

/-- Python `s.startswith(p)`. -/
def strStartsWith (s p : String) : Bool := p.data.isPrefixOf s.data

/-- Python `s.endswith(p)`. -/
def strEndsWith (s p : String) : Bool := p.data.isSuffixOf s.data

/-- The rotation filter of line 53:
`f.startswith('edrmount.db.') and f.endswith('.sqlite.gz')`. -/
def isBackupFile (f : String) : Bool :=
  strStartsWith f "edrmount.db." && strEndsWith f ".sqlite.gz"

/-- Python string three-way comparison: lexicographic by Unicode code
point, shorter string first on ties. -/
def pyCmp : List Char → List Char → Ordering
  | [], [] => Ordering.eq
  | [], _ :: _ => Ordering.lt
  | _ :: _, [] => Ordering.gt
  | a :: as, b :: bs =>
    if a.toNat < b.toNat then Ordering.lt
    else if b.toNat < a.toNat then Ordering.gt
    else pyCmp as bs

/-- Descending string order, as produced by `sorted(..., reverse=True)`:
`descOrder a b` holds when `a` may come no later than `b`, i.e. `a ≥ b` in
Python string order. -/
def descOrder (a b : String) : Prop := pyCmp a.data b.data ≠ Ordering.lt

instance : DecidableRel descOrder := fun a b =>
  inferInstanceAs (Decidable (pyCmp a.data b.data ≠ Ordering.lt))

/-- `sorted(l, reverse=True)` on filenames (lexicographic, descending). -/
def sortDesc (l : List String) : List String := List.insertionSort descOrder l

/-- The start index of the Python slice `l[keep:]` for a possibly negative
`keep`: `keep` itself if non-negative, else `len + keep` clamped at `0`. -/
def pySliceIdx (keep : Int) (len : Nat) : Nat :=
  if 0 ≤ keep then keep.toNat else ((len : Int) + keep).toNat

/-- Lines 51-60: list the directory, filter to the backup naming pattern,
sort descending, and attempt to delete everything in `files[keep:]`, each
deletion independently with its exception swallowed.  `failedDeletes` is
the set of names whose `os.remove` raises. -/
def rotate (keep : Int) (failedDeletes : List String) (out : List (String × Content)) :
    List (String × Content) :=
  let files := sortDesc ((out.map Prod.fst).filter isBackupFile)
  let toDelete := files.drop (pySliceIdx keep files.length)
  toDelete.foldl (fun acc f => if f ∈ failedDeletes then acc else fsErase acc f) out

/-- Configuration and clock inputs of one run: the value of
`EDRMOUNT_BACKUP_KEEP`, the timestamp `datetime.now().strftime(...)`, and
the abstract bytes of the source database at the moment of the copy. -/
structure Env where
  keepStr : String
  ts : String
  dbContent : Nat

/-- Fault injection: which fallible steps of the run raise.  `backupFails`
covers both a lock timeout exhausting the 30 s busy wait and an I/O error
inside `con.backup(bck)`; `compressFails` is an I/O error during the gzip
write; `failedDeletes` are the rotation targets whose `os.remove` raises. -/
structure Faults where
  backupFails : Bool
  compressFails : Bool
  failedDeletes : List String

/-- Observable outcome of the process: `configError` is the uncaught
`ValueError` from `int()` (non-zero exit), `died msg` is `die(msg)`
(message on stderr, exit 1), `fatalBackup` and `fatalCompress` are the
uncaught exceptions of the copy and compression steps (non-zero exit), and
`ok path` is the success path, which prints the backup path and exits 0. -/
inductive RunResult where
  | configError
  | died (msg : String)
  | fatalBackup
  | fatalCompress
  | ok (path : String)
  deriving DecidableEq

/-- The whole of `main()` from `scripts/backup_db.py`, in source order:
parse `EDRMOUNT_BACKUP_KEEP` with `int()` (line 13); check the database
path exists, else `die` (15-16); `os.makedirs(out_dir, exist_ok=True)`
(18); create the temporary copy target by opening it (34) and run the
online copy (36), which on failure leaves the abandoned temporary file
behind; `os.replace(tmp_out, final_out)` (42); gzip-compress into
`final_gz` (45-46), which on failure leaves whatever partial bytes were
written; `os.remove(final_out)` (47); print the success line (49); rotate
(51-60). -/
def main (env : Env) (flt : Faults) (fs0 : FS) : RunResult × FS :=
  match pyInt env.keepStr with
  | none => (RunResult.configError, fs0)
  | some keep =>
    if fs0.dbExists = false then
      (RunResult.died "DB not found", fs0)
    else
      let fs1 : FS := { fs0 with outDirExists := true }
      let tmp := tmpName env.ts
      let fs2 : FS := { fs1 with out := fsInsert fs1.out tmp (Content.raw 0) }
      if flt.backupFails then
        (RunResult.fatalBackup, fs2)
      else
        let fs3 : FS := { fs2 with out := fsInsert fs2.out tmp (Content.raw env.dbContent) }
        let fs4 : FS := { fs3 with
          out := fsInsert (fsErase fs3.out tmp) (sqliteName env.ts) (Content.raw env.dbContent) }
        if flt.compressFails then
          (RunResult.fatalCompress,
            { fs4 with
              out := fsInsert fs4.out (gzName env.ts) (Content.gzTruncated env.dbContent) })
        else
          let fs5 : FS := { fs4 with
            out := fsInsert fs4.out (gzName env.ts) (Content.gz env.dbContent) }
          let fs6 : FS := { fs5 with out := fsErase fs5.out (sqliteName env.ts) }
          (RunResult.ok (gzName env.ts), { fs6 with out := rotate keep flt.failedDeletes fs6.out })

/-! ### Association-list lemmas -/

theorem map_fst_filter_key (q : String → Bool) (l : List (String × Content)) :
    (l.filter (fun p => q p.1)).map Prod.fst = (l.map Prod.fst).filter q := by
  induction l with
  | nil => rfl
  | cons p rest ih =>
    by_cases h : q p.1 = true
    · simp [List.filter_cons, h, ih]
    · simp [List.filter_cons, h, ih]

theorem fsErase_eq_filter (l : List (String × Content)) (k : String) :
    fsErase l k = l.filter (fun p => p.1 ≠ k) := rfl

theorem keys_fsErase (l : List (String × Content)) (k : String) :
    (fsErase l k).map Prod.fst = (l.map Prod.fst).filter (fun n => n ≠ k) :=
  map_fst_filter_key (fun n => n ≠ k) l

theorem fsErase_cons_self (k : String) (v : Content) (l : List (String × Content)) :
    fsErase ((k, v) :: l) k = fsErase l k := by
  simp [fsErase, List.filter_cons]

theorem fsErase_cons_ne (a k : String) (v : Content) (l : List (String × Content))
    (h : a ≠ k) : fsErase ((a, v) :: l) k = (a, v) :: fsErase l k := by
  simp [fsErase, List.filter_cons, h]

theorem fsErase_of_not_mem (l : List (String × Content)) (k : String)
    (h : k ∉ l.map Prod.fst) : fsErase l k = l := by
  apply List.filter_eq_self.mpr
  intro p hp
  simp only [decide_eq_true_eq]
  intro he
  exact h (he ▸ List.mem_map_of_mem Prod.fst hp)

theorem not_mem_keys_fsErase (l : List (String × Content)) (k k2 : String)
    (h : k ∉ l.map Prod.fst) : k ∉ (fsErase l k2).map Prod.fst := by
  rw [keys_fsErase]
  intro hmem
  exact h (List.mem_of_mem_filter hmem)

theorem fsInsert_of_not_mem (l : List (String × Content)) (k : String) (v : Content)
    (h : k ∉ l.map Prod.fst) : fsInsert l k v = (k, v) :: l := by
  rw [fsInsert, fsErase_of_not_mem l k h]

theorem fsLookup_eq_none (l : List (String × Content)) (key : String)
    (h : key ∉ l.map Prod.fst) : fsLookup l key = none := by
  induction l with
  | nil => rfl
  | cons p rest ih =>
    obtain ⟨k, v⟩ := p
    simp only [List.map_cons, List.mem_cons] at h
    push_neg at h
    show (if k = key then some v else fsLookup rest key) = none
    rw [if_neg (fun e => h.1 e.symm), ih h.2]

theorem fsLookup_fsErase_ne (l : List (String × Content)) (k key : String) (h : k ≠ key) :
    fsLookup (fsErase l k) key = fsLookup l key := by
  induction l with
  | nil => rfl
  | cons p rest ih =>
    obtain ⟨a, b⟩ := p
    by_cases hak : a = k
    · subst hak
      rw [fsErase_cons_self, ih]
      exact (if_neg h).symm
    · rw [fsErase_cons_ne a k b rest hak]
      show (if a = key then some b else fsLookup (fsErase rest k) key)
        = (if a = key then some b else fsLookup rest key)
      by_cases hk : a = key <;> simp [hk, ih]

theorem fsLookup_insert (l : List (String × Content)) (k key : String) (v : Content) :
    fsLookup (fsInsert l k v) key = if k = key then some v else fsLookup l key := by
  show (if k = key then some v else fsLookup (fsErase l k) key) = _
  by_cases h : k = key
  · rw [if_pos h, if_pos h]
  · rw [if_neg h, if_neg h, fsLookup_fsErase_ne l k key h]

theorem fsLookup_filter_all (q : String × Content → Bool) (l : List (String × Content))
    (key : String) (hq : ∀ v, q (key, v) = true) :
    fsLookup (l.filter q) key = fsLookup l key := by
  induction l with
  | nil => rfl
  | cons p rest ih =>
    obtain ⟨a, b⟩ := p
    by_cases hab : q (a, b) = true
    · rw [List.filter_cons_of_pos hab]
      show (if a = key then some b else fsLookup (rest.filter q) key)
        = (if a = key then some b else fsLookup rest key)
      by_cases hk : a = key <;> simp [hk, ih]
    · rw [List.filter_cons_of_neg (by simpa using hab), ih]
      show fsLookup rest key = if a = key then some b else fsLookup rest key
      rw [if_neg (fun e => hab (by rw [e]; exact hq b))]

theorem fsLookup_filter_none (q : String × Content → Bool) (l : List (String × Content))
    (key : String) (hq : ∀ v, q (key, v) = false) :
    fsLookup (l.filter q) key = none := by
  induction l with
  | nil => rfl
  | cons p rest ih =>
    obtain ⟨a, b⟩ := p
    by_cases hab : q (a, b) = true
    · rw [List.filter_cons_of_pos hab]
      show (if a = key then some b else fsLookup (rest.filter q) key) = none
      rw [if_neg (fun e => by rw [e, hq b] at hab; exact Bool.false_ne_true hab), ih]
    · rw [List.filter_cons_of_neg (by simpa using hab), ih]

theorem foldl_delete_eq_filter (del fails : List String) (l : List (String × Content)) :
    del.foldl (fun acc f => if f ∈ fails then acc else fsErase acc f) l
      = l.filter (fun p => ¬ (p.1 ∈ del ∧ p.1 ∉ fails)) := by
  induction del generalizing l with
  | nil =>
    rw [List.foldl_nil]
    refine (List.filter_eq_self.mpr ?_).symm
    intro p _
    simp
  | cons d rest ih =>
    rw [List.foldl_cons]
    by_cases hd : d ∈ fails
    · rw [if_pos hd, ih]
      apply List.filter_congr
      intro p _
      rw [decide_eq_decide]
      constructor
      · intro h hc
        apply h
        rcases hc with ⟨hm, hf⟩
        rcases List.mem_cons.mp hm with he | hm2
        · exact absurd (he ▸ hd) hf
        · exact ⟨hm2, hf⟩
      · intro h hc
        exact h ⟨List.mem_cons_of_mem d hc.1, hc.2⟩
    · rw [if_neg hd, ih, fsErase_eq_filter, List.filter_filter]
      apply List.filter_congr
      intro p _
      rw [← Bool.decide_and, decide_eq_decide]
      constructor
      · rintro ⟨hr, hne⟩ ⟨hm, hf⟩
        rcases List.mem_cons.mp hm with he | hm2
        · exact absurd he (by simpa using hne)
        · exact hr ⟨hm2, hf⟩
      · intro h
        constructor
        · intro hc
          exact h ⟨List.mem_cons_of_mem d hc.1, hc.2⟩
        · intro he
          exact h ⟨by rw [he]; exact List.mem_cons_self d rest, by rw [he]; exact hd⟩

theorem not_mem_keys_fsErase_self (l : List (String × Content)) (k : String) :
    k ∉ (fsErase l k).map Prod.fst := by
  rw [keys_fsErase]
  intro h
  have := (List.mem_filter.mp h).2
  simp at this

theorem fsErase_fsInsert (l : List (String × Content)) (k : String) (v : Content) :
    fsErase (fsInsert l k v) k = fsErase l k := by
  rw [fsInsert, fsErase_cons_self, fsErase_of_not_mem _ _ (not_mem_keys_fsErase_self l k)]

theorem fsErase_comm (l : List (String × Content)) (a k : String) :
    fsErase (fsErase l a) k = fsErase (fsErase l k) a := by
  rw [fsErase_eq_filter (fsErase l a) k, fsErase_eq_filter l a, List.filter_filter,
      fsErase_eq_filter (fsErase l k) a, fsErase_eq_filter l k, List.filter_filter]
  apply List.filter_congr
  intro p _
  rw [Bool.and_comm]

theorem fsErase_fsInsert_ne (l : List (String × Content)) (a k : String) (v : Content)
    (h : a ≠ k) : fsErase (fsInsert l a v) k = fsInsert (fsErase l k) a v := by
  rw [fsInsert, fsErase_cons_ne a k v _ h, fsInsert, fsErase_comm]

/-! ### Filename facts -/

theorem length_tmpName (ts : String) : (tmpName ts).length = ts.length + 16 := by
  have h1 : ("edrmount.db." : String).length = 12 := rfl
  have h2 : (".tmp" : String).length = 4 := rfl
  rw [tmpName, String.length_append, String.length_append, h1, h2]
  omega

theorem length_sqliteName (ts : String) : (sqliteName ts).length = ts.length + 19 := by
  have h1 : ("edrmount.db." : String).length = 12 := rfl
  have h2 : (".sqlite" : String).length = 7 := rfl
  rw [sqliteName, String.length_append, String.length_append, h1, h2]
  omega

theorem length_gzName (ts : String) : (gzName ts).length = ts.length + 22 := by
  have h2 : (".gz" : String).length = 3 := rfl
  rw [gzName, String.length_append, length_sqliteName, h2]

theorem tmpName_ne_sqliteName (ts : String) : tmpName ts ≠ sqliteName ts := by
  intro h
  have := congrArg String.length h
  rw [length_tmpName, length_sqliteName] at this
  omega

theorem gzName_ne_sqliteName (ts : String) : gzName ts ≠ sqliteName ts := by
  intro h
  have := congrArg String.length h
  rw [length_gzName, length_sqliteName] at this
  omega

theorem gzName_ne_tmpName (ts : String) : gzName ts ≠ tmpName ts := by
  intro h
  have := congrArg String.length h
  rw [length_gzName, length_tmpName] at this
  omega

theorem gzName_data (ts : String) :
    (gzName ts).data
      = ("edrmount.db." : String).data ++ (ts.data ++ (".sqlite.gz" : String).data) := by
  have h : (".sqlite" : String).data ++ (".gz" : String).data
      = (".sqlite.gz" : String).data := by decide
  simp only [gzName, sqliteName, String.data_append, List.append_assoc, h]

theorem isBackupFile_gzName (ts : String) : isBackupFile (gzName ts) = true := by
  rw [isBackupFile, Bool.and_eq_true, strStartsWith, strEndsWith]
  constructor
  · rw [List.isPrefixOf_iff_prefix, gzName_data]
    exact List.prefix_append _ _
  · rw [List.isSuffixOf_iff_suffix, gzName_data]
    exact (List.suffix_append _ _).trans (List.suffix_append _ _)

theorem isBackupFile_false_of_tmp (s : String) (h : strEndsWith s ".tmp" = true) :
    isBackupFile s = false := by
  by_cases hb : isBackupFile s = true
  · exfalso
    rw [isBackupFile, Bool.and_eq_true] at hb
    have h2 : (".sqlite.gz" : String).data <:+ s.data :=
      List.isSuffixOf_iff_suffix.mp hb.2
    have h3 : (".tmp" : String).data <:+ (".sqlite.gz" : String).data :=
      List.suffix_of_suffix_length_le (List.isSuffixOf_iff_suffix.mp h) h2 (by decide)
    exact absurd h3 (by decide)
  · exact Bool.eq_false_iff.mpr hb

theorem isBackupFile_false_of_sqlite (s : String) (h : strEndsWith s ".sqlite" = true) :
    isBackupFile s = false := by
  by_cases hb : isBackupFile s = true
  · exfalso
    rw [isBackupFile, Bool.and_eq_true] at hb
    have h2 : (".sqlite.gz" : String).data <:+ s.data :=
      List.isSuffixOf_iff_suffix.mp hb.2
    have h3 : (".sqlite" : String).data <:+ (".sqlite.gz" : String).data :=
      List.suffix_of_suffix_length_le (List.isSuffixOf_iff_suffix.mp h) h2 (by decide)
    exact absurd h3 (by decide)
  · exact Bool.eq_false_iff.mpr hb

/-! ### Characterizations of the four run outcomes -/

theorem main_configError (env : Env) (flt : Faults) (fs0 : FS)
    (h : pyInt env.keepStr = none) : main env flt fs0 = (RunResult.configError, fs0) := by
  unfold main
  rw [h]

theorem main_died (env : Env) (flt : Faults) (fs0 : FS) (keep : Int)
    (hk : pyInt env.keepStr = some keep) (hdb : fs0.dbExists = false) :
    main env flt fs0 = (RunResult.died "DB not found", fs0) := by
  unfold main
  rw [hk]
  simp [hdb]

theorem main_fatalBackup (env : Env) (flt : Faults) (fs0 : FS) (keep : Int)
    (hk : pyInt env.keepStr = some keep) (hdb : fs0.dbExists = true)
    (hb : flt.backupFails = true) :
    main env flt fs0 =
      (RunResult.fatalBackup,
        ⟨true, true, fsInsert fs0.out (tmpName env.ts) (Content.raw 0)⟩) := by
  unfold main
  rw [hk]
  simp [hdb, hb]

theorem main_fatalCompress (env : Env) (flt : Faults) (fs0 : FS) (keep : Int)
    (hk : pyInt env.keepStr = some keep) (hdb : fs0.dbExists = true)
    (hb : flt.backupFails = false) (hc : flt.compressFails = true)
    (htmp : tmpName env.ts ∉ fs0.out.map Prod.fst) :
    main env flt fs0 =
      (RunResult.fatalCompress,
        ⟨true, true,
          fsInsert (fsInsert fs0.out (sqliteName env.ts) (Content.raw env.dbContent))
            (gzName env.ts) (Content.gzTruncated env.dbContent)⟩) := by
  unfold main
  rw [hk]
  simp only [hdb, hb, hc, Bool.false_eq_true, if_false, Bool.true_eq_false, ite_false]
  rw [fsErase_fsInsert, fsErase_fsInsert, fsErase_of_not_mem _ _ htmp]
  simp [hdb]

theorem main_success (env : Env) (flt : Faults) (fs0 : FS) (keep : Int)
    (hk : pyInt env.keepStr = some keep) (hdb : fs0.dbExists = true)
    (hb : flt.backupFails = false) (hc : flt.compressFails = false)
    (htmp : tmpName env.ts ∉ fs0.out.map Prod.fst)
    (hsq : sqliteName env.ts ∉ fs0.out.map Prod.fst) :
    main env flt fs0 =
      (RunResult.ok (gzName env.ts),
        ⟨true, true,
          rotate keep flt.failedDeletes
            (fsInsert fs0.out (gzName env.ts) (Content.gz env.dbContent))⟩) := by
  unfold main
  rw [hk]
  simp only [hdb, hb, hc, Bool.false_eq_true, if_false, Bool.true_eq_false, ite_false]
  rw [fsErase_fsInsert, fsErase_fsInsert, fsErase_of_not_mem _ _ htmp]
  rw [fsErase_fsInsert_ne _ _ _ _ (gzName_ne_sqliteName env.ts)]
  rw [fsErase_fsInsert, fsErase_of_not_mem _ _ hsq]

/-! ### Order lemmas for the Python string comparison -/

theorem pyCmp_eq_iff (a b : List Char) : pyCmp a b = Ordering.eq ↔ a = b := by
  induction a generalizing b with
  | nil => cases b <;> simp [pyCmp]
  | cons x as ih =>
    cases b with
    | nil => simp [pyCmp]
    | cons y bs =>
      rw [pyCmp]
      by_cases h1 : x.toNat < y.toNat
      · rw [if_pos h1]
        constructor
        · intro h; exact absurd h (by decide)
        · intro h
          injection h with hx _
          rw [hx] at h1
          omega
      · rw [if_neg h1]
        by_cases h2 : y.toNat < x.toNat
        · rw [if_pos h2]
          constructor
          · intro h; exact absurd h (by decide)
          · intro h
            injection h with hx _
            rw [hx] at h2
            omega
        · rw [if_neg h2]
          have hxy : x = y := by
            have hn : x.toNat = y.toNat := by omega
            rw [← Char.ofNat_toNat x, hn, Char.ofNat_toNat y]
          subst hxy
          rw [ih bs]
          constructor
          · intro h; rw [h]
          · intro h; injection h

theorem pyCmp_swap (a b : List Char) : pyCmp b a = (pyCmp a b).swap := by
  induction a generalizing b with
  | nil => cases b <;> simp [pyCmp, Ordering.swap]
  | cons x as ih =>
    cases b with
    | nil => simp [pyCmp, Ordering.swap]
    | cons y bs =>
      rw [pyCmp, pyCmp]
      by_cases h1 : x.toNat < y.toNat
      · rw [if_neg (by omega), if_pos h1, if_pos h1]
        rfl
      · rw [if_neg h1]
        by_cases h2 : y.toNat < x.toNat
        · rw [if_pos h2, if_neg h1, if_pos h2]
          rfl
        · rw [if_neg h2, if_neg h1, if_neg h2]
          exact ih bs

theorem pyCmp_lt_trans (a b c : List Char) (h1 : pyCmp a b = Ordering.lt)
    (h2 : pyCmp b c = Ordering.lt) : pyCmp a c = Ordering.lt := by
  induction a generalizing b c with
  | nil =>
    cases c with
    | nil =>
      cases b with
      | nil => exact h2
      | cons y bs => rw [pyCmp] at h2; exact absurd h2 (by decide)
    | cons z cs => rw [pyCmp]
  | cons x as ih =>
    cases b with
    | nil => rw [pyCmp] at h1; exact absurd h1 (by decide)
    | cons y bs =>
      cases c with
      | nil => rw [pyCmp] at h2; exact absurd h2 (by decide)
      | cons z cs =>
        rw [pyCmp] at h1 h2 ⊢
        by_cases hxy : x.toNat < y.toNat
        · by_cases hyz : y.toNat < z.toNat
          · rw [if_pos (by omega)]
          · rw [if_neg hyz] at h2
            by_cases hzy : z.toNat < y.toNat
            · rw [if_pos hzy] at h2; exact absurd h2 (by decide)
            · rw [if_pos (by omega)]
        · rw [if_neg hxy] at h1
          by_cases hyx : y.toNat < x.toNat
          · rw [if_pos hyx] at h1; exact absurd h1 (by decide)
          · rw [if_neg hyx] at h1
            by_cases hyz : y.toNat < z.toNat
            · rw [if_pos (by omega)]
            · rw [if_neg hyz] at h2
              by_cases hzy : z.toNat < y.toNat
              · rw [if_pos hzy] at h2; exact absurd h2 (by decide)
              · rw [if_neg hzy] at h2
                rw [if_neg (by omega), if_neg (by omega)]
                exact ih bs cs h1 h2

instance : IsTotal String descOrder := ⟨fun a b => by
  unfold descOrder
  rw [pyCmp_swap a.data b.data]
  cases pyCmp a.data b.data <;> simp [Ordering.swap]⟩

instance : IsTrans String descOrder := ⟨fun a b c hab hbc => by
  intro hac
  cases heq : pyCmp a.data b.data with
  | lt => exact hab heq
  | eq =>
    have he : a.data = b.data := (pyCmp_eq_iff _ _).mp heq
    exact hbc (he ▸ hac)
  | gt =>
    have h1 : pyCmp b.data a.data = Ordering.lt := by
      rw [pyCmp_swap, heq]
      rfl
    exact hbc (pyCmp_lt_trans _ _ _ h1 hac)⟩

theorem descOrder_refl (a : String) : descOrder a a := by
  unfold descOrder
  rw [(pyCmp_eq_iff a.data a.data).mpr rfl]
  exact fun h => Ordering.noConfusion h

theorem descOrder_antisymm (a b : String) (h1 : descOrder a b) (h2 : descOrder b a) :
    a = b := by
  cases heq : pyCmp a.data b.data with
  | lt => exact absurd heq h1
  | eq => exact String.ext ((pyCmp_eq_iff _ _).mp heq)
  | gt =>
    have hs : pyCmp b.data a.data = Ordering.lt := by
      rw [pyCmp_swap, heq]
      rfl
    exact absurd hs h2

/-! ### Rotation lemmas -/

theorem sortDesc_perm (l : List String) : List.Perm (sortDesc l) l :=
  List.perm_insertionSort descOrder l

theorem sortDesc_sorted (l : List String) : List.Sorted descOrder (sortDesc l) :=
  List.sorted_insertionSort descOrder l

theorem rotate_eq_filter (keep : Int) (fails : List String) (out : List (String × Content)) :
    rotate keep fails out
      = out.filter (fun p =>
          ¬ (p.1 ∈ (sortDesc ((out.map Prod.fst).filter isBackupFile)).drop
                (pySliceIdx keep (sortDesc ((out.map Prod.fst).filter isBackupFile)).length)
             ∧ p.1 ∉ fails)) := by
  rw [rotate]
  exact foldl_delete_eq_filter _ _ _

theorem mem_drop_isBackupFile (out : List (String × Content)) (keep : Int) (n : String)
    (h : n ∈ (sortDesc ((out.map Prod.fst).filter isBackupFile)).drop
        (pySliceIdx keep (sortDesc ((out.map Prod.fst).filter isBackupFile)).length)) :
    isBackupFile n = true := by
  have h1 : n ∈ sortDesc ((out.map Prod.fst).filter isBackupFile) := List.mem_of_mem_drop h
  have h2 : n ∈ (out.map Prod.fst).filter isBackupFile := (sortDesc_perm _).mem_iff.mp h1
  exact (List.mem_filter.mp h2).2

theorem fsLookup_rotate_of_kept (keep : Int) (fails : List String)
    (out : List (String × Content)) (n : String)
    (h : n ∉ (sortDesc ((out.map Prod.fst).filter isBackupFile)).drop
        (pySliceIdx keep (sortDesc ((out.map Prod.fst).filter isBackupFile)).length)) :
    fsLookup (rotate keep fails out) n = fsLookup out n := by
  rw [rotate_eq_filter]
  apply fsLookup_filter_all
  intro v
  simp only [decide_eq_true_eq]
  rintro ⟨hmem, -⟩
  exact h hmem

theorem fsLookup_rotate_of_not_backup (keep : Int) (fails : List String)
    (out : List (String × Content)) (n : String) (h : isBackupFile n = false) :
    fsLookup (rotate keep fails out) n = fsLookup out n := by
  apply fsLookup_rotate_of_kept
  intro hmem
  rw [mem_drop_isBackupFile out keep n hmem] at h
  exact Bool.noConfusion h

theorem fsLookup_rotate_of_deleted (keep : Int) (fails : List String)
    (out : List (String × Content)) (n : String)
    (hmem : n ∈ (sortDesc ((out.map Prod.fst).filter isBackupFile)).drop
        (pySliceIdx keep (sortDesc ((out.map Prod.fst).filter isBackupFile)).length))
    (hf : n ∉ fails) :
    fsLookup (rotate keep fails out) n = none := by
  rw [rotate_eq_filter]
  apply fsLookup_filter_none
  intro v
  exact decide_eq_false_iff_not.mpr (not_not_intro ⟨hmem, hf⟩)

theorem keys_rotate (keep : Int) (fails : List String) (out : List (String × Content)) :
    (rotate keep fails out).map Prod.fst
      = (out.map Prod.fst).filter (fun n =>
          ¬ (n ∈ (sortDesc ((out.map Prod.fst).filter isBackupFile)).drop
                (pySliceIdx keep (sortDesc ((out.map Prod.fst).filter isBackupFile)).length)
             ∧ n ∉ fails)) := by
  rw [rotate_eq_filter]
  exact map_fst_filter_key (fun n =>
    decide (¬ (n ∈ (sortDesc ((out.map Prod.fst).filter isBackupFile)).drop
        (pySliceIdx keep (sortDesc ((out.map Prod.fst).filter isBackupFile)).length)
      ∧ n ∉ fails))) out

theorem filter_not_mem_drop (s : List String) (m : Nat) (hnd : s.Nodup) :
    s.filter (fun n => n ∉ s.drop m) = s.take m := by
  obtain ⟨a, b, hab, ha, hb⟩ :
      ∃ a b, s = a ++ b ∧ a = s.take m ∧ b = s.drop m :=
    ⟨s.take m, s.drop m, (List.take_append_drop m s).symm, rfl, rfl⟩
  rw [← hb, ← ha]
  rw [hab] at hnd ⊢
  have hdisj : List.Disjoint a b := (List.nodup_append.mp hnd).2.2
  have h1 : ∀ x ∈ a, (fun n => decide (n ∉ b)) x = true := by
    intro x hx
    simpa using fun hxb => hdisj hx hxb
  have h2 : ∀ x ∈ b, ¬ ((fun n => decide (n ∉ b)) x = true) := by
    intro x hx
    simp only [decide_eq_true_eq]
    exact fun hc => hc hx
  rw [List.filter_append, List.filter_eq_self.mpr h1, List.filter_eq_nil_iff.mpr h2,
    List.append_nil]

theorem rotate_matching_perm (keep : Int) (out : List (String × Content))
    (hnd : (out.map Prod.fst).Nodup) :
    List.Perm (((rotate keep [] out).map Prod.fst).filter isBackupFile)
      ((sortDesc ((out.map Prod.fst).filter isBackupFile)).take
        (pySliceIdx keep (sortDesc ((out.map Prod.fst).filter isBackupFile)).length)) := by
  have hnallM : ((out.map Prod.fst).filter isBackupFile).Nodup := hnd.filter _
  have hns : (sortDesc ((out.map Prod.fst).filter isBackupFile)).Nodup :=
    (sortDesc_perm _).nodup_iff.mpr hnallM
  rw [keys_rotate, List.filter_filter]
  have hcongr : (out.map Prod.fst).filter (fun a => isBackupFile a &&
        decide (¬ (a ∈ (sortDesc ((out.map Prod.fst).filter isBackupFile)).drop
            (pySliceIdx keep (sortDesc ((out.map Prod.fst).filter isBackupFile)).length)
          ∧ a ∉ ([] : List String))))
      = ((out.map Prod.fst).filter isBackupFile).filter (fun a =>
          a ∉ (sortDesc ((out.map Prod.fst).filter isBackupFile)).drop
            (pySliceIdx keep (sortDesc ((out.map Prod.fst).filter isBackupFile)).length)) := by
    rw [List.filter_filter]
    apply List.filter_congr
    intro x _
    have he : decide (¬ (x ∈ (sortDesc ((out.map Prod.fst).filter isBackupFile)).drop
          (pySliceIdx keep (sortDesc ((out.map Prod.fst).filter isBackupFile)).length)
        ∧ x ∉ ([] : List String)))
        = decide (x ∉ (sortDesc ((out.map Prod.fst).filter isBackupFile)).drop
            (pySliceIdx keep (sortDesc ((out.map Prod.fst).filter isBackupFile)).length)) := by
      simp
    rw [he, Bool.and_comm]
  rw [hcongr]
  refine ((sortDesc_perm _).symm.filter _).trans ?_
  rw [filter_not_mem_drop _ _ hns]

theorem rotate_matching_length (keep : Int) (out : List (String × Content))
    (hnd : (out.map Prod.fst).Nodup) :
    (((rotate keep [] out).map Prod.fst).filter isBackupFile).length
      = min (pySliceIdx keep
            (sortDesc ((out.map Prod.fst).filter isBackupFile)).length)
          ((out.map Prod.fst).filter isBackupFile).length := by
  rw [(rotate_matching_perm keep out hnd).length_eq, List.length_take,
    (sortDesc_perm _).length_eq]

theorem max_not_in_drop (s : List String) (m : Nat) (hm : 1 ≤ m)
    (hs : List.Sorted descOrder s) (hnd : s.Nodup) (g : String) (hg : g ∈ s)
    (hmax : ∀ x ∈ s, descOrder g x) : g ∉ s.drop m := by
  cases s with
  | nil => simp at hg
  | cons a t =>
    have hag : descOrder g a := hmax a (List.mem_cons_self a t)
    have hga : descOrder a g := by
      rcases List.mem_cons.mp hg with he | ht
      · exact he ▸ descOrder_refl g
      · exact List.rel_of_sorted_cons hs g ht
    have heq : g = a := descOrder_antisymm g a hag hga
    subst heq
    intro hdrop
    obtain ⟨k, rfl⟩ : ∃ k, m = k + 1 := ⟨m - 1, by omega⟩
    rw [List.drop_succ_cons] at hdrop
    exact (List.nodup_cons.mp hnd).1 (List.mem_of_mem_drop hdrop)

theorem matching_after_insert (out0 : List (String × Content)) (ts : String) (v : Nat)
    (hgz : gzName ts ∉ out0.map Prod.fst) :
    ((fsInsert out0 (gzName ts) (Content.gz v)).map Prod.fst).filter isBackupFile
      = gzName ts :: (out0.map Prod.fst).filter isBackupFile := by
  rw [fsInsert_of_not_mem _ _ _ hgz, List.map_cons,
    List.filter_cons_of_pos (isBackupFile_gzName ts)]

theorem keys_nodup_insert (out0 : List (String × Content)) (k : String) (v : Content)
    (hk : k ∉ out0.map Prod.fst) (hnd : (out0.map Prod.fst).Nodup) :
    ((fsInsert out0 k v).map Prod.fst).Nodup := by
  rw [fsInsert_of_not_mem _ _ _ hk, List.map_cons]
  exact List.nodup_cons.mpr ⟨hk, hnd⟩

/-! ### Claims -/

/-- C5: if the Source Database path does not exist, the run dies with the
"DB not found" diagnostic (stderr, exit 1) and the filesystem is untouched:
the output directory is not created and no file in it is created, modified
or deleted.  (The retention value is assumed to parse; a malformed one
fails at line 13, even earlier and likewise without side effects.) -/
theorem C5_sourceNotFound (env : Env) (flt : Faults) (fs0 : FS) (keep : Int)
    (hk : pyInt env.keepStr = some keep) (hdb : fs0.dbExists = false) :
    main env flt fs0 = (RunResult.died "DB not found", fs0) :=
  main_died env flt fs0 keep hk hdb

/-- Witness for C5 at a concrete input. -/
theorem C5_sourceNotFound_witness :
    main ⟨"30", "20260101-120000", 5⟩ ⟨false, false, []⟩ ⟨false, false, []⟩
      = (RunResult.died "DB not found", ⟨false, false, []⟩) :=
  C5_sourceNotFound ⟨"30", "20260101-120000", 5⟩ ⟨false, false, []⟩ ⟨false, false, []⟩ 30
    (by decide) rfl

/-- C2 counterexample: the retention value "-5" does not parse as a
non-negative integer, yet the run does not fail fast: `int("-5")` succeeds
and the run completes with exit 0 and side effects, contradicting the
claim. -/
theorem C2_counterexample :
    pyInt "-5" = some (-5)
      ∧ (main ⟨"-5", "20260101-120000", 5⟩ ⟨false, false, []⟩ ⟨true, false, []⟩).1
          = RunResult.ok "edrmount.db.20260101-120000.sqlite.gz" := by
  constructor
  · decide
  · decide

/-- C2 amended: only a retention value that does not parse as an integer at
all makes the run fail fast — the uncaught `ValueError` from line 13 exits
non-zero before any side effect (no directory created, no file touched).  A
negative integer parses fine and the run proceeds (see C8 for what rotation
then does). -/
theorem C2_configError_no_side_effects (env : Env) (flt : Faults) (fs0 : FS)
    (h : pyInt env.keepStr = none) :
    main env flt fs0 = (RunResult.configError, fs0) :=
  main_configError env flt fs0 h

/-- Witness for the amended C2 at a concrete input. -/
theorem C2_configError_no_side_effects_witness :
    pyInt "banana" = none
      ∧ main ⟨"banana", "20260101-120000", 5⟩ ⟨false, false, []⟩ ⟨true, false, []⟩
          = (RunResult.configError, ⟨true, false, []⟩) :=
  ⟨by decide, C2_configError_no_side_effects ⟨"banana", "20260101-120000", 5⟩
    ⟨false, false, []⟩ ⟨true, false, []⟩ (by decide)⟩

/-- C1 counterexample: with a compression failure injected, the run leaves
the partial compressed file at the final `.gz` name — nothing cleans it
up — so the claim that no file exists at that name after the run is false
on the code.  (The other half of the claim, preservation of the
uncompressed snapshot, does hold; see the amended theorem.) -/
theorem C1_counterexample :
    (main ⟨"30", "20260101-120000", 5⟩ ⟨false, true, []⟩ ⟨true, false, []⟩).1
        = RunResult.fatalCompress
      ∧ fsLookup (main ⟨"30", "20260101-120000", 5⟩ ⟨false, true, []⟩
            ⟨true, false, []⟩).2.out
          "edrmount.db.20260101-120000.sqlite.gz"
        = some (Content.gzTruncated 5) := by
  constructor
  · decide
  · decide

/-- C1 amended: if compression raises part-way through, the run aborts with
the exception; the uncompressed Snapshot Artifact is NOT deleted — it still
holds the original database bytes — but the partial compressed file is NOT
cleaned up either: it remains at the final
`<dbname>.<timestamp>.sqlite.gz` name. -/
theorem C1_compressFailed (env : Env) (flt : Faults) (fs0 : FS) (keep : Int)
    (hk : pyInt env.keepStr = some keep) (hdb : fs0.dbExists = true)
    (hb : flt.backupFails = false) (hc : flt.compressFails = true)
    (htmp : tmpName env.ts ∉ fs0.out.map Prod.fst) :
    (main env flt fs0).1 = RunResult.fatalCompress
      ∧ fsLookup (main env flt fs0).2.out (sqliteName env.ts)
          = some (Content.raw env.dbContent)
      ∧ fsLookup (main env flt fs0).2.out (gzName env.ts)
          = some (Content.gzTruncated env.dbContent) := by
  rw [main_fatalCompress env flt fs0 keep hk hdb hb hc htmp]
  refine ⟨rfl, ?_, ?_⟩
  · rw [fsLookup_insert, if_neg (gzName_ne_sqliteName env.ts), fsLookup_insert, if_pos rfl]
  · rw [fsLookup_insert, if_pos rfl]

/-- Witness for the amended C1 at a concrete input. -/
theorem C1_compressFailed_witness :
    (main ⟨"30", "20260101-120000", 5⟩ ⟨false, true, []⟩ ⟨true, false, []⟩).1
        = RunResult.fatalCompress
      ∧ fsLookup (main ⟨"30", "20260101-120000", 5⟩ ⟨false, true, []⟩
            ⟨true, false, []⟩).2.out (sqliteName "20260101-120000")
          = some (Content.raw 5)
      ∧ fsLookup (main ⟨"30", "20260101-120000", 5⟩ ⟨false, true, []⟩
            ⟨true, false, []⟩).2.out (gzName "20260101-120000")
          = some (Content.gzTruncated 5) :=
  C1_compressFailed ⟨"30", "20260101-120000", 5⟩ ⟨false, true, []⟩ ⟨true, false, []⟩ 30
    (by decide) rfl rfl rfl (by decide)

/-- C7: when the online copy fails (lock timeout after the bounded wait, or
an I/O error inside `con.backup`), no file ever appears at the final
Snapshot Artifact name: the copy targets the `.tmp` file, whose name is
distinct from the final `.sqlite` name, and `os.replace` runs only after a
completed copy — so the directory entry at the final name is exactly what
it was before the run (in particular absent if it was absent). -/
theorem C7_copyFailed_no_final_artifact (env : Env) (flt : Faults) (fs0 : FS) (keep : Int)
    (hk : pyInt env.keepStr = some keep) (hdb : fs0.dbExists = true)
    (hb : flt.backupFails = true) :
    (main env flt fs0).1 = RunResult.fatalBackup
      ∧ tmpName env.ts ≠ sqliteName env.ts
      ∧ fsLookup (main env flt fs0).2.out (sqliteName env.ts)
          = fsLookup fs0.out (sqliteName env.ts) := by
  rw [main_fatalBackup env flt fs0 keep hk hdb hb]
  refine ⟨rfl, tmpName_ne_sqliteName env.ts, ?_⟩
  rw [fsLookup_insert, if_neg (tmpName_ne_sqliteName env.ts)]

/-- Witness for C7 at a concrete input. -/
theorem C7_copyFailed_no_final_artifact_witness :
    (main ⟨"30", "20260101-120000", 5⟩ ⟨true, false, []⟩ ⟨true, false, []⟩).1
        = RunResult.fatalBackup
      ∧ tmpName "20260101-120000" ≠ sqliteName "20260101-120000"
      ∧ fsLookup (main ⟨"30", "20260101-120000", 5⟩ ⟨true, false, []⟩
            ⟨true, false, []⟩).2.out (sqliteName "20260101-120000")
          = fsLookup ([] : List (String × Content)) (sqliteName "20260101-120000") :=
  C7_copyFailed_no_final_artifact ⟨"30", "20260101-120000", 5⟩ ⟨true, false, []⟩
    ⟨true, false, []⟩ 30 (by decide) rfl rfl

theorem rotate_deleted_isBackupFile (keep : Int) (fails : List String)
    (out : List (String × Content)) (p : String × Content)
    (hp : p ∈ out) (hdel : p ∉ rotate keep fails out) : isBackupFile p.1 = true := by
  by_cases hq : p.1 ∈ (sortDesc ((out.map Prod.fst).filter isBackupFile)).drop
      (pySliceIdx keep (sortDesc ((out.map Prod.fst).filter isBackupFile)).length)
  · exact mem_drop_isBackupFile out keep p.1 hq
  · exfalso
    apply hdel
    rw [rotate_eq_filter]
    refine List.mem_filter.mpr ⟨hp, ?_⟩
    exact decide_eq_true (fun hc => hq hc.1)

theorem strEndsWith_tmpName (ts : String) : strEndsWith (tmpName ts) ".tmp" = true := by
  rw [strEndsWith, List.isSuffixOf_iff_suffix, tmpName, String.data_append]
  exact List.suffix_append _ _

theorem strEndsWith_sqliteName (ts : String) :
    strEndsWith (sqliteName ts) ".sqlite" = true := by
  rw [strEndsWith, List.isSuffixOf_iff_suffix, sqliteName, String.data_append]
  exact List.suffix_append _ _

/-- C6: rotation deletions are attempted independently.  Whatever subset of
the selected files fails to delete, the run still reports overall success —
the backup path was printed and the process exits 0, since the Compressed
Backup already exists — and every selected file whose own deletion does not
fail is removed; one failure never prevents the other attempts. -/
theorem C6_rotation_independent (env : Env) (flt : Faults) (fs0 : FS) (keep : Int)
    (hk : pyInt env.keepStr = some keep) (hdb : fs0.dbExists = true)
    (hb : flt.backupFails = false) (hc : flt.compressFails = false)
    (htmp : tmpName env.ts ∉ fs0.out.map Prod.fst)
    (hsq : sqliteName env.ts ∉ fs0.out.map Prod.fst) :
    (main env flt fs0).1 = RunResult.ok (gzName env.ts)
      ∧ ∀ n ∈ (sortDesc (((fsInsert fs0.out (gzName env.ts)
            (Content.gz env.dbContent)).map Prod.fst).filter isBackupFile)).drop
          (pySliceIdx keep (sortDesc (((fsInsert fs0.out (gzName env.ts)
            (Content.gz env.dbContent)).map Prod.fst).filter isBackupFile)).length),
        n ∉ flt.failedDeletes → fsLookup (main env flt fs0).2.out n = none := by
  rw [main_success env flt fs0 keep hk hdb hb hc htmp hsq]
  refine ⟨rfl, ?_⟩
  intro n hmem hnf
  exact fsLookup_rotate_of_deleted keep flt.failedDeletes _ n hmem hnf

/-- Witness for C6: retention 1 with two old backups plus one new one; the
deletion of the newer of the two selected files fails, the other one is
still deleted, and the run reports success. -/
theorem C6_rotation_independent_witness :
    (main ⟨"1", "20260103-000000", 7⟩
        ⟨false, false, ["edrmount.db.20260102-000000.sqlite.gz"]⟩
        ⟨true, true, [("edrmount.db.20260102-000000.sqlite.gz", Content.gz 2),
                      ("edrmount.db.20260101-000000.sqlite.gz", Content.gz 1)]⟩).1
        = RunResult.ok (gzName "20260103-000000")
      ∧ fsLookup (main ⟨"1", "20260103-000000", 7⟩
          ⟨false, false, ["edrmount.db.20260102-000000.sqlite.gz"]⟩
          ⟨true, true, [("edrmount.db.20260102-000000.sqlite.gz", Content.gz 2),
                        ("edrmount.db.20260101-000000.sqlite.gz", Content.gz 1)]⟩).2.out
        "edrmount.db.20260101-000000.sqlite.gz" = none := by
  have h := C6_rotation_independent ⟨"1", "20260103-000000", 7⟩
    ⟨false, false, ["edrmount.db.20260102-000000.sqlite.gz"]⟩
    ⟨true, true, [("edrmount.db.20260102-000000.sqlite.gz", Content.gz 2),
                  ("edrmount.db.20260101-000000.sqlite.gz", Content.gz 1)]⟩ 1
    (by decide) rfl rfl rfl (by decide) (by decide)
  exact ⟨h.1, h.2 "edrmount.db.20260101-000000.sqlite.gz" (by decide) (by decide)⟩

/-- C9: rotation only ever deletes names matching the backup pattern —
prefix 'edrmount.db.' and suffix '.sqlite.gz' (first conjunct, for any
rotation input whatsoever).  Since a name ending in '.tmp' or in '.sqlite'
never carries the '.sqlite.gz' suffix, a successful run leaves the
directory entry of every such name — including stale leftovers of earlier
failed runs — exactly as it was before the run (second conjunct). -/
theorem C9_rotation_only_deletes_backups (env : Env) (flt : Faults) (fs0 : FS)
    (keep : Int) (n : String)
    (hk : pyInt env.keepStr = some keep) (hdb : fs0.dbExists = true)
    (hb : flt.backupFails = false) (hc : flt.compressFails = false)
    (htmp : tmpName env.ts ∉ fs0.out.map Prod.fst)
    (hsq : sqliteName env.ts ∉ fs0.out.map Prod.fst)
    (hn : strEndsWith n ".tmp" = true ∨ strEndsWith n ".sqlite" = true) :
    (∀ (keep2 : Int) (fails : List String) (out : List (String × Content))
        (p : String × Content), p ∈ out → p ∉ rotate keep2 fails out →
        isBackupFile p.1 = true)
      ∧ fsLookup (main env flt fs0).2.out n = fsLookup fs0.out n := by
  have hnb : isBackupFile n = false := by
    rcases hn with h | h
    · exact isBackupFile_false_of_tmp n h
    · exact isBackupFile_false_of_sqlite n h
  have hngz : gzName env.ts ≠ n := by
    intro e
    rw [← e, isBackupFile_gzName env.ts] at hnb
    exact Bool.noConfusion hnb
  refine ⟨fun keep2 fails out p hp hdel => rotate_deleted_isBackupFile keep2 fails out p hp hdel, ?_⟩
  rw [main_success env flt fs0 keep hk hdb hb hc htmp hsq]
  rw [fsLookup_rotate_of_not_backup _ _ _ _ hnb, fsLookup_insert, if_neg hngz]

/-- Witness for C9: a stale uncompressed snapshot from an old failed run
survives a successful run untouched. -/
theorem C9_rotation_only_deletes_backups_witness :
    (∀ (keep2 : Int) (fails : List String) (out : List (String × Content))
        (p : String × Content), p ∈ out → p ∉ rotate keep2 fails out →
        isBackupFile p.1 = true)
      ∧ fsLookup (main ⟨"30", "20260103-000000", 7⟩ ⟨false, false, []⟩
          ⟨true, true, [("edrmount.db.20250101-000000.sqlite", Content.raw 9)]⟩).2.out
          "edrmount.db.20250101-000000.sqlite"
        = fsLookup [("edrmount.db.20250101-000000.sqlite", Content.raw 9)]
            "edrmount.db.20250101-000000.sqlite" :=
  C9_rotation_only_deletes_backups ⟨"30", "20260103-000000", 7⟩ ⟨false, false, []⟩
    ⟨true, true, [("edrmount.db.20250101-000000.sqlite", Content.raw 9)]⟩ 30
    "edrmount.db.20250101-000000.sqlite"
    (by decide) rfl rfl rfl (by decide) (by decide) (Or.inr (by decide))

theorem pySliceIdx_nonneg (keep : Int) (L : Nat) (h : 0 ≤ keep) :
    pySliceIdx keep L = keep.toNat := if_pos h

theorem pySliceIdx_neg (k : Nat) (L : Nat) (hk : 0 < k) :
    pySliceIdx (-(k : Int)) L = L - k := by
  rw [pySliceIdx, if_neg (by omega)]
  omega

/-- C3: a successful run with non-negative retention `N`, starting from
`previous_size` backups matching the naming pattern and with every
attempted deletion succeeding, ends with exactly
`min(N, previous_size + 1)` matching backups, and they are exactly the
first `N` names of the descending-sorted (newest-first) listing.  In
particular `N = 0` leaves zero matching backups: the just-created backup is
deleted like any other. -/
theorem C3_backup_set_bound (env : Env) (flt : Faults) (fs0 : FS) (keep : Int)
    (hk : pyInt env.keepStr = some keep) (hkn : 0 ≤ keep)
    (hdb : fs0.dbExists = true)
    (hb : flt.backupFails = false) (hc : flt.compressFails = false)
    (hfd : flt.failedDeletes = [])
    (htmp : tmpName env.ts ∉ fs0.out.map Prod.fst)
    (hsq : sqliteName env.ts ∉ fs0.out.map Prod.fst)
    (hgz : gzName env.ts ∉ fs0.out.map Prod.fst)
    (hnd : (fs0.out.map Prod.fst).Nodup) :
    (main env flt fs0).1 = RunResult.ok (gzName env.ts)
      ∧ List.Perm (((main env flt fs0).2.out.map Prod.fst).filter isBackupFile)
          ((sortDesc (gzName env.ts :: (fs0.out.map Prod.fst).filter isBackupFile)).take
            keep.toNat)
      ∧ (((main env flt fs0).2.out.map Prod.fst).filter isBackupFile).length
          = min keep.toNat
              (((fs0.out.map Prod.fst).filter isBackupFile).length + 1) := by
  have hN := keys_nodup_insert fs0.out (gzName env.ts) (Content.gz env.dbContent) hgz hnd
  have hM := matching_after_insert fs0.out env.ts env.dbContent hgz
  rw [main_success env flt fs0 keep hk hdb hb hc htmp hsq, hfd]
  refine ⟨rfl, ?_, ?_⟩
  · have hperm := rotate_matching_perm keep
      (fsInsert fs0.out (gzName env.ts) (Content.gz env.dbContent)) hN
    rw [hM, pySliceIdx_nonneg _ _ hkn] at hperm
    exact hperm
  · have hlen := rotate_matching_length keep
      (fsInsert fs0.out (gzName env.ts) (Content.gz env.dbContent)) hN
    rw [hM, pySliceIdx_nonneg _ _ hkn, List.length_cons] at hlen
    exact hlen

/-- Witness for C3: retention 2 over three existing backups plus the new
one leaves exactly the two newest. -/
theorem C3_backup_set_bound_witness :
    (main ⟨"2", "20260104-000000", 7⟩ ⟨false, false, []⟩
        ⟨true, true, [("edrmount.db.20260103-000000.sqlite.gz", Content.gz 3),
                      ("edrmount.db.20260101-000000.sqlite.gz", Content.gz 1),
                      ("edrmount.db.20260102-000000.sqlite.gz", Content.gz 2)]⟩).1
      = RunResult.ok (gzName "20260104-000000")
    ∧ List.Perm (((main ⟨"2", "20260104-000000", 7⟩ ⟨false, false, []⟩
          ⟨true, true, [("edrmount.db.20260103-000000.sqlite.gz", Content.gz 3),
                        ("edrmount.db.20260101-000000.sqlite.gz", Content.gz 1),
                        ("edrmount.db.20260102-000000.sqlite.gz", Content.gz 2)]⟩).2.out.map
            Prod.fst).filter isBackupFile)
        ["edrmount.db.20260104-000000.sqlite.gz", "edrmount.db.20260103-000000.sqlite.gz"]
    ∧ (((main ⟨"2", "20260104-000000", 7⟩ ⟨false, false, []⟩
          ⟨true, true, [("edrmount.db.20260103-000000.sqlite.gz", Content.gz 3),
                        ("edrmount.db.20260101-000000.sqlite.gz", Content.gz 1),
                        ("edrmount.db.20260102-000000.sqlite.gz", Content.gz 2)]⟩).2.out.map
            Prod.fst).filter isBackupFile).length = 2 :=
  C3_backup_set_bound ⟨"2", "20260104-000000", 7⟩ ⟨false, false, []⟩
    ⟨true, true, [("edrmount.db.20260103-000000.sqlite.gz", Content.gz 3),
                  ("edrmount.db.20260101-000000.sqlite.gz", Content.gz 1),
                  ("edrmount.db.20260102-000000.sqlite.gz", Content.gz 2)]⟩ 2
    (by decide) (by decide) rfl rfl rfl rfl (by decide) (by decide) (by decide) (by decide)

/-- C8 (implicit): a negative retention value `-k` is accepted by `int()`
and the run completes with no configuration error; by Python negative-slice
semantics `files[keep:]` then selects the last `min(k, total)` entries of
the descending-sorted listing, so rotation deletes exactly the
`min(k, total)` oldest matching backups and keeps all the rest. -/
theorem C8_negative_keep (env : Env) (flt : Faults) (fs0 : FS) (k : Nat)
    (hk : pyInt env.keepStr = some (-(k : Int))) (hkpos : 0 < k)
    (hdb : fs0.dbExists = true)
    (hb : flt.backupFails = false) (hc : flt.compressFails = false)
    (hfd : flt.failedDeletes = [])
    (htmp : tmpName env.ts ∉ fs0.out.map Prod.fst)
    (hsq : sqliteName env.ts ∉ fs0.out.map Prod.fst)
    (hgz : gzName env.ts ∉ fs0.out.map Prod.fst)
    (hnd : (fs0.out.map Prod.fst).Nodup) :
    (main env flt fs0).1 = RunResult.ok (gzName env.ts)
      ∧ List.Perm (((main env flt fs0).2.out.map Prod.fst).filter isBackupFile)
          ((sortDesc (gzName env.ts :: (fs0.out.map Prod.fst).filter isBackupFile)).take
            (((fs0.out.map Prod.fst).filter isBackupFile).length + 1 - k))
      ∧ (((main env flt fs0).2.out.map Prod.fst).filter isBackupFile).length
          = (((fs0.out.map Prod.fst).filter isBackupFile).length + 1)
            - min k (((fs0.out.map Prod.fst).filter isBackupFile).length + 1) := by
  have hN := keys_nodup_insert fs0.out (gzName env.ts) (Content.gz env.dbContent) hgz hnd
  have hM := matching_after_insert fs0.out env.ts env.dbContent hgz
  rw [main_success env flt fs0 (-(k : Int)) hk hdb hb hc htmp hsq, hfd]
  refine ⟨rfl, ?_, ?_⟩
  · have hperm := rotate_matching_perm (-(k : Int))
      (fsInsert fs0.out (gzName env.ts) (Content.gz env.dbContent)) hN
    rw [hM, (sortDesc_perm _).length_eq, List.length_cons, pySliceIdx_neg k _ hkpos] at hperm
    exact hperm
  · have hlen := rotate_matching_length (-(k : Int))
      (fsInsert fs0.out (gzName env.ts) (Content.gz env.dbContent)) hN
    rw [hM, (sortDesc_perm _).length_eq, List.length_cons, pySliceIdx_neg k _ hkpos] at hlen
    show (((rotate (-(k : Int)) []
        (fsInsert fs0.out (gzName env.ts) (Content.gz env.dbContent))).map
          Prod.fst).filter isBackupFile).length = _
    rw [hlen]
    omega

/-- Witness for C8: retention "-2" over three existing backups plus the new
one deletes the two oldest and keeps the other two. -/
theorem C8_negative_keep_witness :
    (main ⟨"-2", "20260104-000000", 7⟩ ⟨false, false, []⟩
        ⟨true, true, [("edrmount.db.20260103-000000.sqlite.gz", Content.gz 3),
                      ("edrmount.db.20260101-000000.sqlite.gz", Content.gz 1),
                      ("edrmount.db.20260102-000000.sqlite.gz", Content.gz 2)]⟩).1
      = RunResult.ok (gzName "20260104-000000")
    ∧ List.Perm (((main ⟨"-2", "20260104-000000", 7⟩ ⟨false, false, []⟩
          ⟨true, true, [("edrmount.db.20260103-000000.sqlite.gz", Content.gz 3),
                        ("edrmount.db.20260101-000000.sqlite.gz", Content.gz 1),
                        ("edrmount.db.20260102-000000.sqlite.gz", Content.gz 2)]⟩).2.out.map
            Prod.fst).filter isBackupFile)
        ["edrmount.db.20260104-000000.sqlite.gz", "edrmount.db.20260103-000000.sqlite.gz"]
    ∧ (((main ⟨"-2", "20260104-000000", 7⟩ ⟨false, false, []⟩
          ⟨true, true, [("edrmount.db.20260103-000000.sqlite.gz", Content.gz 3),
                        ("edrmount.db.20260101-000000.sqlite.gz", Content.gz 1),
                        ("edrmount.db.20260102-000000.sqlite.gz", Content.gz 2)]⟩).2.out.map
            Prod.fst).filter isBackupFile).length = 2 :=
  C8_negative_keep ⟨"-2", "20260104-000000", 7⟩ ⟨false, false, []⟩
    ⟨true, true, [("edrmount.db.20260103-000000.sqlite.gz", Content.gz 3),
                  ("edrmount.db.20260101-000000.sqlite.gz", Content.gz 1),
                  ("edrmount.db.20260102-000000.sqlite.gz", Content.gz 2)]⟩ 2
    (by decide) (by decide) rfl rfl rfl rfl (by decide) (by decide) (by decide) (by decide)

/-- C4 counterexample: with retention 0 the run exits successfully (zero,
path printed) yet afterwards the output directory holds no Compressed
Backup at all — rotation deleted the very file the run created — refuting
"exactly one new Compressed Backup file exists afterward" for every
successful run. -/
theorem C4_counterexample :
    (main ⟨"0", "20260101-120000", 5⟩ ⟨false, false, []⟩ ⟨true, false, []⟩).1
        = RunResult.ok "edrmount.db.20260101-120000.sqlite.gz"
      ∧ (main ⟨"0", "20260101-120000", 5⟩ ⟨false, false, []⟩ ⟨true, false, []⟩).2.out
          = [] := by
  constructor
  · decide
  · decide

/-- C4 amended: a successful run leaves neither its `.tmp` copy nor its
uncompressed `.sqlite` snapshot behind, and the one new Compressed Backup
it created is still present afterwards provided the retention count is at
least 1 and the new name is the greatest matching name (the normal case,
embedded timestamps being increasing); with retention 0 rotation deletes
the new backup itself (see the counterexample). -/
theorem C4_success_artifacts (env : Env) (flt : Faults) (fs0 : FS) (keep : Int)
    (hk : pyInt env.keepStr = some keep) (hk1 : 1 ≤ keep)
    (hdb : fs0.dbExists = true)
    (hb : flt.backupFails = false) (hc : flt.compressFails = false)
    (htmp : tmpName env.ts ∉ fs0.out.map Prod.fst)
    (hsq : sqliteName env.ts ∉ fs0.out.map Prod.fst)
    (hgz : gzName env.ts ∉ fs0.out.map Prod.fst)
    (hnd : (fs0.out.map Prod.fst).Nodup)
    (hmax : ∀ x ∈ (fs0.out.map Prod.fst).filter isBackupFile,
      descOrder (gzName env.ts) x) :
    (main env flt fs0).1 = RunResult.ok (gzName env.ts)
      ∧ fsLookup (main env flt fs0).2.out (gzName env.ts)
          = some (Content.gz env.dbContent)
      ∧ fsLookup (main env flt fs0).2.out (sqliteName env.ts) = none
      ∧ fsLookup (main env flt fs0).2.out (tmpName env.ts) = none := by
  have hM := matching_after_insert fs0.out env.ts env.dbContent hgz
  have hnd2 : (gzName env.ts :: (fs0.out.map Prod.fst).filter isBackupFile).Nodup := by
    refine List.nodup_cons.mpr ⟨?_, hnd.filter _⟩
    intro hmem
    exact hgz (List.mem_of_mem_filter hmem)
  rw [main_success env flt fs0 keep hk hdb hb hc htmp hsq]
  refine ⟨rfl, ?_, ?_, ?_⟩
  · have hkept : gzName env.ts
        ∉ (sortDesc (((fsInsert fs0.out (gzName env.ts) (Content.gz env.dbContent)).map
              Prod.fst).filter isBackupFile)).drop
            (pySliceIdx keep (sortDesc (((fsInsert fs0.out (gzName env.ts)
              (Content.gz env.dbContent)).map Prod.fst).filter isBackupFile)).length) := by
      rw [hM]
      apply max_not_in_drop
      · rw [pySliceIdx_nonneg _ _ (by omega)]
        omega
      · exact sortDesc_sorted _
      · exact (sortDesc_perm _).nodup_iff.mpr hnd2
      · exact (sortDesc_perm _).mem_iff.mpr (List.mem_cons_self _ _)
      · intro x hx
        rcases List.mem_cons.mp ((sortDesc_perm _).mem_iff.mp hx) with he | hm
        · exact he ▸ descOrder_refl (gzName env.ts)
        · exact hmax x hm
    rw [fsLookup_rotate_of_kept _ _ _ _ hkept, fsLookup_insert, if_pos rfl]
  · rw [fsLookup_rotate_of_not_backup _ _ _ _
        (isBackupFile_false_of_sqlite _ (strEndsWith_sqliteName env.ts)),
      fsLookup_insert, if_neg (gzName_ne_sqliteName env.ts), fsLookup_eq_none _ _ hsq]
  · rw [fsLookup_rotate_of_not_backup _ _ _ _
        (isBackupFile_false_of_tmp _ (strEndsWith_tmpName env.ts)),
      fsLookup_insert, if_neg (gzName_ne_tmpName env.ts), fsLookup_eq_none _ _ htmp]

/-- Witness for the amended C4 at a concrete input. -/
theorem C4_success_artifacts_witness :
    (main ⟨"2", "20260102-000000", 7⟩ ⟨false, false, []⟩
        ⟨true, true, [("edrmount.db.20260101-000000.sqlite.gz", Content.gz 1)]⟩).1
      = RunResult.ok (gzName "20260102-000000")
    ∧ fsLookup (main ⟨"2", "20260102-000000", 7⟩ ⟨false, false, []⟩
        ⟨true, true, [("edrmount.db.20260101-000000.sqlite.gz", Content.gz 1)]⟩).2.out
        (gzName "20260102-000000") = some (Content.gz 7)
    ∧ fsLookup (main ⟨"2", "20260102-000000", 7⟩ ⟨false, false, []⟩
        ⟨true, true, [("edrmount.db.20260101-000000.sqlite.gz", Content.gz 1)]⟩).2.out
        (sqliteName "20260102-000000") = none
    ∧ fsLookup (main ⟨"2", "20260102-000000", 7⟩ ⟨false, false, []⟩
        ⟨true, true, [("edrmount.db.20260101-000000.sqlite.gz", Content.gz 1)]⟩).2.out
        (tmpName "20260102-000000") = none :=
  C4_success_artifacts ⟨"2", "20260102-000000", 7⟩ ⟨false, false, []⟩
    ⟨true, true, [("edrmount.db.20260101-000000.sqlite.gz", Content.gz 1)]⟩ 2
    (by decide) (by decide) rfl rfl rfl (by decide) (by decide) (by decide) (by decide)
    (by decide)

theorem rotate_keep30_singleton (ts : String) (c : Content) :
    rotate 30 [] [(gzName ts, c)] = [(gzName ts, c)] := by
  rw [rotate_eq_filter]
  have h1 : (([(gzName ts, c)].map Prod.fst).filter isBackupFile) = [gzName ts] := by
    simp [isBackupFile_gzName]
  rw [h1]
  have h2 : sortDesc [gzName ts] = [gzName ts] := rfl
  rw [h2]
  have h3 : List.drop (pySliceIdx 30 [gzName ts].length) [gzName ts] = [] := rfl
  rw [h3]
  simp

/-- C10 (implicit): two sequential runs in the same clock second collide on
filenames without raising: the second run's `os.replace` and its
`gzip.open(..., 'wb')` silently overwrite the first run's files, and
afterwards the output directory holds exactly one Compressed Backup for
that timestamp, containing the second run's snapshot.  (Scenario: existing
source database, empty backup directory, default retention "30".) -/
theorem C10_same_second_collision (ts : String) (v1 v2 : Nat) :
    (main ⟨"30", ts, v2⟩ ⟨false, false, []⟩
        (main ⟨"30", ts, v1⟩ ⟨false, false, []⟩ ⟨true, false, []⟩).2).1
      = RunResult.ok (gzName ts)
    ∧ (main ⟨"30", ts, v2⟩ ⟨false, false, []⟩
        (main ⟨"30", ts, v1⟩ ⟨false, false, []⟩ ⟨true, false, []⟩).2).2.out
      = [(gzName ts, Content.gz v2)] := by
  have h30 : pyInt "30" = some 30 := by decide
  have hrun1 : (main ⟨"30", ts, v1⟩ ⟨false, false, []⟩ ⟨true, false, []⟩).2
      = ⟨true, true, [(gzName ts, Content.gz v1)]⟩ := by
    rw [main_success ⟨"30", ts, v1⟩ ⟨false, false, []⟩ ⟨true, false, []⟩ 30 h30 rfl rfl rfl
      (by simp) (by simp)]
    show FS.mk true true (rotate 30 [] (fsInsert [] (gzName ts) (Content.gz v1))) = _
    rw [show fsInsert ([] : List (String × Content)) (gzName ts) (Content.gz v1)
        = [(gzName ts, Content.gz v1)] from rfl]
    rw [rotate_keep30_singleton]
  rw [hrun1]
  have htmp2 : tmpName ts ∉ ([(gzName ts, Content.gz v1)].map Prod.fst) := by
    simp only [List.map_cons, List.map_nil, List.mem_singleton]
    exact fun h => gzName_ne_tmpName ts h.symm
  have hsq2 : sqliteName ts ∉ ([(gzName ts, Content.gz v1)].map Prod.fst) := by
    simp only [List.map_cons, List.map_nil, List.mem_singleton]
    exact fun h => gzName_ne_sqliteName ts h.symm
  rw [main_success ⟨"30", ts, v2⟩ ⟨false, false, []⟩
    ⟨true, true, [(gzName ts, Content.gz v1)]⟩ 30 h30 rfl rfl rfl htmp2 hsq2]
  refine ⟨rfl, ?_⟩
  show rotate 30 [] (fsInsert [(gzName ts, Content.gz v1)] (gzName ts) (Content.gz v2)) = _
  rw [show fsInsert [(gzName ts, Content.gz v1)] (gzName ts) (Content.gz v2)
      = [(gzName ts, Content.gz v2)] by rw [fsInsert, fsErase_cons_self]; rfl]
  rw [rotate_keep30_singleton]

end BackupDb
